import Mathlib

/-!
Shallow embedding of `services/gpuservice/gpustats/GpuStats.cpp`
(Corvus-AOSP/android_frameworks_native).

The file `GpuStats.cpp` implements a mutex-guarded in-memory statistics
store with two tables:
  * `mGlobalStats : unordered_map<uint64_t, GpuStatsGlobalInfo>` keyed by
    driver version code, and
  * `mAppStats : unordered_map<string, GpuStatsAppInfo>` keyed by the
    concatenation `appPackageName + std::to_string(driverVersionCode)`.

We model each `unordered_map` as an association list (new bindings are
appended at the tail; `operator[]` on an existing key is modelled by
`assocSet`, replacing the first binding).  Machine integers become `Nat`
(for the unsigned version code and the counters) and `Int` (for the
signed build time and loading time); none of the verified claims depends
on wrap-around behaviour.  The mutex and the trace/log statements are
dropped: every public operation is a pure function from state to state.
-/

namespace android

/-- Modelled from the spec: the driver-variant enumeration
(`GraphicsEnv::Driver`, declared in a header that is not part of the
sources).  The spec lists four supported variants — OpenGL system,
OpenGL updated, Vulkan system, Vulkan updated — plus other/unsupported
variants; the source's `switch` default mentions `ANGLE` and the enum
also has a `NONE` member. -/
inductive Driver where
  | NONE
  | GL
  | GL_UPDATED
  | VULKAN
  | VULKAN_UPDATED
  | ANGLE
deriving DecidableEq, Repr

/-- `true` exactly on the four driver variants the spec calls supported
(the cases of the `switch` in `addLoadingCount` / `addLoadingTime` other
than `default`). -/
def Driver.supported : Driver → Bool
  | .GL | .GL_UPDATED | .VULKAN | .VULKAN_UPDATED => true
  | _ => false

/-- Modelled from the spec: the global record (`GpuStatsGlobalInfo`,
declared in `GpuStats.h` which is not part of the sources) — identity
fields (driver package name, version name, version code, build time)
plus four loading counters. -/
structure GpuStatsGlobalInfo where
  driverPackageName : String := ""
  driverVersionName : String := ""
  driverVersionCode : Nat := 0
  driverBuildTime : Int := 0
  glLoadingCount : Nat := 0
  glLoadingFailureCount : Nat := 0
  vkLoadingCount : Nat := 0
  vkLoadingFailureCount : Nat := 0
deriving DecidableEq, Repr

/-- Modelled from the spec: the app record (`GpuStatsAppInfo`, declared
in `GpuStats.h` which is not part of the sources) — identity fields
(app package name, driver version code) plus one ordered loading-time
sample sequence per driver family. -/
structure GpuStatsAppInfo where
  appPackageName : String := ""
  driverVersionCode : Nat := 0
  glDriverLoadingTime : List Int := []
  vkDriverLoadingTime : List Int := []
deriving DecidableEq, Repr

/-- Modelled from the spec: `GpuStatsGlobalInfo::toString` (not part of
the sources).  One line per record, fields in the spec's order
(driverPackageName, driverVersionName, driverVersionCode,
driverBuildTime, glLoadingCount, glLoadingFailureCount, vkLoadingCount,
vkLoadingFailureCount), separated by a stable delimiter. -/
def GpuStatsGlobalInfo.toString (info : GpuStatsGlobalInfo) : String :=
  "driverPackageName = " ++ info.driverPackageName ++
  ", driverVersionName = " ++ info.driverVersionName ++
  ", driverVersionCode = " ++ ToString.toString info.driverVersionCode ++
  ", driverBuildTime = " ++ ToString.toString info.driverBuildTime ++
  ", glLoadingCount = " ++ ToString.toString info.glLoadingCount ++
  ", glLoadingFailureCount = " ++ ToString.toString info.glLoadingFailureCount ++
  ", vkLoadingCount = " ++ ToString.toString info.vkLoadingCount ++
  ", vkLoadingFailureCount = " ++ ToString.toString info.vkLoadingFailureCount

/-- Modelled from the spec: `GpuStatsAppInfo::toString` (not part of the
sources).  One line per record: appPackageName, driverVersionCode, the
OpenGL loading-time list, the Vulkan loading-time list. -/
def GpuStatsAppInfo.toString (info : GpuStatsAppInfo) : String :=
  "appPackageName = " ++ info.appPackageName ++
  ", driverVersionCode = " ++ ToString.toString info.driverVersionCode ++
  ", glDriverLoadingTime = " ++ ToString.toString info.glDriverLoadingTime ++
  ", vkDriverLoadingTime = " ++ ToString.toString info.vkDriverLoadingTime

/-- Modelled from the spec: the app-table capacity constant
`GpuStats::MAX_NUM_APP_RECORDS` declared in `GpuStats.h` (not part of
the sources); the spec gives the capacity limit as 100. -/
def MAX_NUM_APP_RECORDS : Nat := 100

/-- First binding for key `k` in an association list — models
`unordered_map::count(k) != 0` (membership) together with the read side
of `operator[]` on a present key. -/
def assocFind? [DecidableEq α] (k : α) : List (α × β) → Option β
  | [] => none
  | (a, b) :: rest => if a = k then some b else assocFind? k rest

/-- Replace the first binding for key `k` — models the write side of
`unordered_map::operator[]` on a present key. -/
def assocSet [DecidableEq α] (k : α) (v : β) : List (α × β) → List (α × β)
  | [] => []
  | (a, b) :: rest => if a = k then (a, v) :: rest else (a, b) :: assocSet k v rest

/-- `GpuStats.cpp` lines 29–49, `addLoadingCount`: bump the total (and,
on failure, the failure) counter of the resolved driver family.  The
C++ out-parameter plus `bool` return becomes `Option`: `none` models
the `default:` case returning `false` with no mutation. -/
def addLoadingCount (driver : Driver) (isDriverLoaded : Bool)
    (outGlobalInfo : GpuStatsGlobalInfo) : Option GpuStatsGlobalInfo :=
  match driver with
  | .GL | .GL_UPDATED =>
      some { outGlobalInfo with
        glLoadingCount := outGlobalInfo.glLoadingCount + 1
        glLoadingFailureCount :=
          if !isDriverLoaded then outGlobalInfo.glLoadingFailureCount + 1
          else outGlobalInfo.glLoadingFailureCount }
  | .VULKAN | .VULKAN_UPDATED =>
      some { outGlobalInfo with
        vkLoadingCount := outGlobalInfo.vkLoadingCount + 1
        vkLoadingFailureCount :=
          if !isDriverLoaded then outGlobalInfo.vkLoadingFailureCount + 1
          else outGlobalInfo.vkLoadingFailureCount }
  | _ => none

/-- `GpuStats.cpp` lines 51–65, `addLoadingTime`: append the
loading-time sample to the sequence of the resolved driver family
(no-op in the `default:` case). -/
def addLoadingTime (driver : Driver) (driverLoadingTime : Int)
    (outAppInfo : GpuStatsAppInfo) : GpuStatsAppInfo :=
  match driver with
  | .GL | .GL_UPDATED =>
      { outAppInfo with
        glDriverLoadingTime := outAppInfo.glDriverLoadingTime ++ [driverLoadingTime] }
  | .VULKAN | .VULKAN_UPDATED =>
      { outAppInfo with
        vkDriverLoadingTime := outAppInfo.vkDriverLoadingTime ++ [driverLoadingTime] }
  | _ => outAppInfo

/-- The store's state: the two member tables of class `GpuStats`. -/
structure GpuStats where
  mGlobalStats : List (Nat × GpuStatsGlobalInfo) := []
  mAppStats : List (String × GpuStatsAppInfo) := []
deriving DecidableEq, Repr

/-- `GpuStats.cpp` lines 100–116: the app-table half of
`GpuStats::insert`.  Note the source checks
`mAppStats.size() >= MAX_NUM_APP_RECORDS` and returns BEFORE looking the
composite key up, so at capacity even updates to existing keys are
dropped. -/
def GpuStats.insertApp (s : GpuStats) (appPackageName : String)
    (driverVersionCode : Nat) (driver : Driver) (driverLoadingTime : Int) : GpuStats :=
  if s.mAppStats.length ≥ MAX_NUM_APP_RECORDS then s
  else
    let appStatsKey := appPackageName ++ ToString.toString driverVersionCode
    match assocFind? appStatsKey s.mAppStats with
    | none =>
        let appInfo := addLoadingTime driver driverLoadingTime {}
        let appInfo := { appInfo with
          appPackageName := appPackageName
          driverVersionCode := driverVersionCode }
        { s with mAppStats := s.mAppStats ++ [(appStatsKey, appInfo)] }
    | some appInfo =>
        { s with mAppStats :=
            assocSet appStatsKey (addLoadingTime driver driverLoadingTime appInfo) s.mAppStats }

/-- `GpuStats.cpp` lines 67–116, `GpuStats::insert`: first the global
table (create-or-increment keyed by `driverVersionCode`; an unsupported
driver variant makes the whole call a no-op), then the app table via
`GpuStats.insertApp`. -/
def GpuStats.insert (s : GpuStats) (driverPackageName driverVersionName : String)
    (driverVersionCode : Nat) (driverBuildTime : Int) (appPackageName : String)
    (driver : Driver) (isDriverLoaded : Bool) (driverLoadingTime : Int) : GpuStats :=
  match assocFind? driverVersionCode s.mGlobalStats with
  | none =>
      match addLoadingCount driver isDriverLoaded {} with
      | none => s
      | some globalInfo =>
          let globalInfo := { globalInfo with
            driverPackageName := driverPackageName
            driverVersionName := driverVersionName
            driverVersionCode := driverVersionCode
            driverBuildTime := driverBuildTime }
          let s1 := { s with mGlobalStats := s.mGlobalStats ++ [(driverVersionCode, globalInfo)] }
          s1.insertApp appPackageName driverVersionCode driver driverLoadingTime
  | some globalInfo =>
      match addLoadingCount driver isDriverLoaded globalInfo with
      | none => s
      | some globalInfo1 =>
          let s1 := { s with mGlobalStats := assocSet driverVersionCode globalInfo1 s.mGlobalStats }
          s1.insertApp appPackageName driverVersionCode driver driverLoadingTime

/-- `GpuStats.cpp` lines 173–178, `GpuStats::dumpGlobalLocked`: append
each global record's text plus a newline to the result string. -/
def GpuStats.dumpGlobalLocked (s : GpuStats) (result : String) : String :=
  s.mGlobalStats.foldl (fun r ele => r ++ ele.2.toString ++ "\n") result

/-- `GpuStats.cpp` lines 180–185, `GpuStats::dumpAppLocked`: append each
app record's text plus a newline to the result string. -/
def GpuStats.dumpAppLocked (s : GpuStats) (result : String) : String :=
  s.mAppStats.foldl (fun r ele => r ++ ele.2.toString ++ "\n") result

/-- `GpuStats.cpp` lines 118–171, `GpuStats::dump`.  The `std::string*`
out-parameter becomes an `Option String` (`none` models a null
pointer); the function returns the updated string paired with the
updated state.  `argsSet.count(f)` on the `unordered_set` built from
`args` is modelled by `args.contains f`. -/
def GpuStats.dump (s : GpuStats) (args : List String) (result : Option String) :
    Option String × GpuStats :=
  match result with
  | none => (none, s)
  | some res =>
      let dumpGlobal := args.contains "--global"
      let res := if dumpGlobal then s.dumpGlobalLocked res else res
      let dumpApp := args.contains "--app"
      let res := if dumpApp then s.dumpAppLocked res else res
      let st :=
        if args.contains "--clear" then
          let st := if dumpGlobal then { s with mGlobalStats := [] } else s
          let st := if dumpApp then { st with mAppStats := [] } else st
          if !dumpGlobal && !dumpApp then { st with mGlobalStats := [], mAppStats := [] } else st
        else s
      let dumpAll := !dumpGlobal && !dumpApp && !(args.contains "--clear")
      if dumpAll then (some (st.dumpAppLocked (st.dumpGlobalLocked res)), st)
      else (some res, st)

/-- `GpuStats.cpp` lines 187–199, `GpuStats::pullGlobalStats`: copy all
global records (table iteration order) into a fresh sequence, then
clear the global table. -/
def GpuStats.pullGlobalStats (s : GpuStats) : List GpuStatsGlobalInfo × GpuStats :=
  (s.mGlobalStats.map (fun ele => ele.2), { s with mGlobalStats := [] })

/-- The default-constructed store: both tables empty. -/
def initState : GpuStats := {}

/-! ## Association-list lemmas -/

theorem assocFind?_assocSet_self [DecidableEq α] (k : α) (v w : β) (m : List (α × β))
    (h : assocFind? k m = some w) : assocFind? k (assocSet k v m) = some v := by
  induction m with
  | nil => simp [assocFind?] at h
  | cons p rest ih =>
      obtain ⟨a, b⟩ := p
      by_cases hak : a = k
      · simp [assocFind?, assocSet, hak]
      · simp [assocFind?, assocSet, hak] at h ⊢
        exact ih h

theorem assocFind?_assocSet_ne [DecidableEq α] {a k : α} (v : β) (m : List (α × β))
    (h : a ≠ k) : assocFind? a (assocSet k v m) = assocFind? a m := by
  induction m with
  | nil => rfl
  | cons p rest ih =>
      obtain ⟨x, y⟩ := p
      by_cases hxk : x = k
      · subst hxk
        have hxa : x ≠ a := fun hh => h hh.symm
        simp [assocFind?, assocSet, hxa]
      · by_cases hxa : x = a <;> simp [assocFind?, assocSet, hxk, hxa, h, ih]

theorem assocFind?_append_self [DecidableEq α] (k : α) (v : β) (m : List (α × β))
    (h : assocFind? k m = none) : assocFind? k (m ++ [(k, v)]) = some v := by
  induction m with
  | nil => simp [assocFind?]
  | cons p rest ih =>
      obtain ⟨a, b⟩ := p
      by_cases hak : a = k <;> simp [assocFind?, hak] at h ⊢
      exact ih h

theorem assocFind?_append_ne [DecidableEq α] {a k : α} (v : β) (m : List (α × β))
    (h : a ≠ k) : assocFind? a (m ++ [(k, v)]) = assocFind? a m := by
  induction m with
  | nil =>
      have hka : k ≠ a := fun hh => h hh.symm
      simp [assocFind?, hka]
  | cons p rest ih =>
      obtain ⟨x, y⟩ := p
      by_cases hxa : x = a <;> simp [assocFind?, hxa, ih]

theorem assocSet_length [DecidableEq α] (k : α) (v : β) (m : List (α × β)) :
    (assocSet k v m).length = m.length := by
  induction m with
  | nil => rfl
  | cons p rest ih =>
      obtain ⟨a, b⟩ := p
      by_cases hak : a = k <;> simp [assocSet, hak, ih]

theorem assocSet_keys [DecidableEq α] (k : α) (v : β) (m : List (α × β)) :
    (assocSet k v m).map Prod.fst = m.map Prod.fst := by
  induction m with
  | nil => rfl
  | cons p rest ih =>
      obtain ⟨a, b⟩ := p
      by_cases hak : a = k <;> simp [assocSet, hak, ih]

theorem assocFind?_eq_none_iff [DecidableEq α] (k : α) (m : List (α × β)) :
    assocFind? k m = none ↔ k ∉ m.map Prod.fst := by
  induction m with
  | nil => simp [assocFind?]
  | cons p rest ih =>
      obtain ⟨a, b⟩ := p
      by_cases hak : a = k
      · subst hak
        simp [assocFind?]
      · have hka : k ≠ a := fun hh => hak hh.symm
        simp [assocFind?, hak, hka, ih]

/-! ## Structural lemmas about the store operations -/

theorem insertApp_mGlobalStats (s : GpuStats) (apn : String) (code : Nat)
    (driver : Driver) (t : Int) :
    (s.insertApp apn code driver t).mGlobalStats = s.mGlobalStats := by
  unfold GpuStats.insertApp
  by_cases h : s.mAppStats.length ≥ MAX_NUM_APP_RECORDS
  · simp [h]
  · simp only [h, if_false]
    cases hf : assocFind? (apn ++ ToString.toString code) s.mAppStats <;> simp [hf]

theorem insertApp_of_full (s : GpuStats) (apn : String) (code : Nat)
    (driver : Driver) (t : Int) (h : s.mAppStats.length ≥ MAX_NUM_APP_RECORDS) :
    s.insertApp apn code driver t = s := by
  unfold GpuStats.insertApp
  simp [h]

theorem insertApp_mAppStats_of_full (s : GpuStats) (apn : String) (code : Nat)
    (driver : Driver) (t : Int) (h : s.mAppStats.length ≥ MAX_NUM_APP_RECORDS) :
    (s.insertApp apn code driver t).mAppStats = s.mAppStats :=
  congrArg GpuStats.mAppStats (insertApp_of_full s apn code driver t h)

theorem insert_mAppStats_of_full (s : GpuStats) (dpn dvn : String) (code : Nat)
    (bt : Int) (apn : String) (driver : Driver) (loaded : Bool) (t : Int)
    (h : s.mAppStats.length ≥ MAX_NUM_APP_RECORDS) :
    (s.insert dpn dvn code bt apn driver loaded t).mAppStats = s.mAppStats := by
  unfold GpuStats.insert
  cases hf : assocFind? code s.mGlobalStats with
  | none =>
      cases hc : addLoadingCount driver loaded {} with
      | none => simp [hc]
      | some gi =>
          simp only [hc]
          exact insertApp_mAppStats_of_full _ apn code driver t h
  | some gi =>
      cases hc : addLoadingCount driver loaded gi with
      | none => simp [hc]
      | some gi1 =>
          simp only [hc]
          exact insertApp_mAppStats_of_full _ apn code driver t h

/-! ## Claim theorems -/

/-- C9: for every state and every flag set, `dump` with a null output
destination performs no work: it produces no output, clears neither
table (even with `--clear` among the flags), and returns leaving the
state exactly as it was. -/
theorem C9_dump_null_noop (s : GpuStats) (args : List String) :
    GpuStats.dump s args none = (none, s) := rfl

/-- C6: `pullGlobalStats` returns exactly the global records present at
call time, leaves the global table empty immediately afterwards, leaves
the app table unchanged, and a second call with no intervening
insertions returns the empty sequence. -/
theorem C6_pullGlobalStats_destructive_read (s : GpuStats) :
    s.pullGlobalStats.1 = s.mGlobalStats.map (fun ele => ele.2) ∧
    s.pullGlobalStats.2.mGlobalStats = [] ∧
    s.pullGlobalStats.2.mAppStats = s.mAppStats ∧
    s.pullGlobalStats.2.pullGlobalStats.1 = [] :=
  ⟨rfl, rfl, rfl, rfl⟩

/-- C5: an `insert` whose driver variant is not one of the four
supported variants leaves the whole state (both tables) unchanged. -/
theorem C5_unsupported_driver_noop (s : GpuStats) (dpn dvn : String) (code : Nat)
    (bt : Int) (apn : String) (driver : Driver) (loaded : Bool) (t : Int)
    (h : driver.supported = false) :
    s.insert dpn dvn code bt apn driver loaded t = s := by
  cases driver <;> simp [Driver.supported] at h <;>
    · unfold GpuStats.insert
      cases hf : assocFind? code s.mGlobalStats <;> simp [addLoadingCount]

/-- Witness for C5 at the concrete driver variant `ANGLE`. -/
theorem C5_witness :
    Driver.supported .ANGLE = false ∧
    GpuStats.insert initState "drv" "1.0" 5 1000 "com.foo" .ANGLE true 12 = initState :=
  ⟨by decide, C5_unsupported_driver_noop initState "drv" "1.0" 5 1000 "com.foo" .ANGLE true 12
    (by decide)⟩

/-! ## Concrete example states -/

/-- A concrete global record (driver version code 5). -/
def exRec : GpuStatsGlobalInfo :=
  { driverPackageName := "drv", driverVersionName := "1.0", driverVersionCode := 5
    driverBuildTime := 1000, glLoadingCount := 1, glLoadingFailureCount := 0
    vkLoadingCount := 0, vkLoadingFailureCount := 0 }

/-- A concrete app record for the pair `(com.foo, 5)`. -/
def exApp : GpuStatsAppInfo :=
  { appPackageName := "com.foo", driverVersionCode := 5
    glDriverLoadingTime := [12], vkDriverLoadingTime := [] }

/-- A concrete store with one global record and one app record. -/
def exState : GpuStats :=
  { mGlobalStats := [(5, exRec)], mAppStats := [("com.foo5", exApp)] }

/-! ## More claim theorems -/

theorem addLoadingCount_identity (d : Driver) (loaded : Bool) (gi gi1 : GpuStatsGlobalInfo)
    (h : addLoadingCount d loaded gi = some gi1) :
    gi1.driverPackageName = gi.driverPackageName ∧
    gi1.driverVersionName = gi.driverVersionName ∧
    gi1.driverVersionCode = gi.driverVersionCode ∧
    gi1.driverBuildTime = gi.driverBuildTime := by
  cases d <;> simp [addLoadingCount] at h <;> subst h <;> exact ⟨rfl, rfl, rfl, rfl⟩

/-- C8: when a global record already exists for a version code, a
subsequent `insert` with that version code and a supported driver
variant keeps the record's identity fields (driverPackageName,
driverVersionName, driverVersionCode, driverBuildTime) unchanged even
if the call supplies different identity values. -/
theorem C8_identity_first_writer_wins (s : GpuStats) (dpn dvn : String) (code : Nat)
    (bt : Int) (apn : String) (driver : Driver) (loaded : Bool) (t : Int)
    (rec : GpuStatsGlobalInfo)
    (hfind : assocFind? code s.mGlobalStats = some rec)
    (_hsup : driver.supported = true) :
    ∃ rec1,
      assocFind? code (s.insert dpn dvn code bt apn driver loaded t).mGlobalStats = some rec1 ∧
      rec1.driverPackageName = rec.driverPackageName ∧
      rec1.driverVersionName = rec.driverVersionName ∧
      rec1.driverVersionCode = rec.driverVersionCode ∧
      rec1.driverBuildTime = rec.driverBuildTime := by
  unfold GpuStats.insert
  rw [hfind]
  cases hc : addLoadingCount driver loaded rec with
  | none =>
      simp only [hc]
      exact ⟨rec, hfind, rfl, rfl, rfl, rfl⟩
  | some gi1 =>
      simp only [hc]
      refine ⟨gi1, ?_, addLoadingCount_identity driver loaded rec gi1 hc⟩
      rw [insertApp_mGlobalStats]
      exact assocFind?_assocSet_self code gi1 rec s.mGlobalStats hfind

/-- Witness for C8: an insert with clashing identity values onto the
record for version code 5 leaves that record's identity intact. -/
theorem C8_witness :
    assocFind? 5 exState.mGlobalStats = some exRec ∧
    Driver.supported .GL = true ∧
    (∃ rec1,
      assocFind? 5 (exState.insert "other" "2.0" 5 99 "com.bar" .GL false 7).mGlobalStats =
        some rec1 ∧
      rec1.driverPackageName = exRec.driverPackageName ∧
      rec1.driverVersionName = exRec.driverVersionName ∧
      rec1.driverVersionCode = exRec.driverVersionCode ∧
      rec1.driverBuildTime = exRec.driverBuildTime) :=
  ⟨rfl, rfl,
   C8_identity_first_writer_wins exState "other" "2.0" 5 99 "com.bar" .GL false 7 exRec rfl rfl⟩

theorem contains_append (l₁ l₂ : List String) (a : String) :
    (l₁ ++ l₂).contains a = (l₁.contains a || l₂.contains a) := by
  simp [List.contains, List.elem_eq_mem, List.mem_append]

/-- C10: flag strings other than the three recognized ones are ignored
by `dump` — a call whose flags contain none of the recognized strings
behaves exactly like a call with no flags, and appending unrecognized
strings to any flag list never changes the result. -/
theorem C10_unrecognized_flags_ignored :
    (∀ (s : GpuStats) (r : Option String) (args : List String),
        args.contains "--global" = false → args.contains "--app" = false →
        args.contains "--clear" = false →
        s.dump args r = s.dump [] r) ∧
    (∀ (s : GpuStats) (r : Option String) (args extra : List String),
        extra.contains "--global" = false → extra.contains "--app" = false →
        extra.contains "--clear" = false →
        s.dump (args ++ extra) r = s.dump args r) := by
  constructor
  · intro s r args h1 h2 h3
    simp at h1 h2 h3
    cases r with
    | none => rfl
    | some res => simp [GpuStats.dump, h1, h2, h3]
  · intro s r args extra h1 h2 h3
    simp at h1 h2 h3
    cases r with
    | none => rfl
    | some res => simp [GpuStats.dump, h1, h2, h3]

/-- Witness for C10: an unrecognized flag behaves like no flags, and
appending it to a recognized flag list changes nothing. -/
theorem C10_witness :
    (["bogus"].contains "--global" = false ∧ ["bogus"].contains "--app" = false ∧
      ["bogus"].contains "--clear" = false) ∧
    GpuStats.dump exState ["bogus"] (some "") = GpuStats.dump exState [] (some "") ∧
    GpuStats.dump exState (["--global"] ++ ["bogus"]) (some "") =
      GpuStats.dump exState ["--global"] (some "") :=
  ⟨⟨by decide, by decide, by decide⟩,
   C10_unrecognized_flags_ignored.1 exState (some "") ["bogus"]
     (by decide) (by decide) (by decide),
   C10_unrecognized_flags_ignored.2 exState (some "") ["--global"] ["bogus"]
     (by decide) (by decide) (by decide)⟩

/-- Counterexample for C2 as stated: with the flag set consisting of
exactly the string for clearing (no selector flags), the produced
report text is empty even though both tables are non-empty — the
default dump-all is suppressed, so the report does NOT include the two
tables; both tables are nevertheless cleared. -/
theorem C2_counterexample :
    (["--clear"].contains "--global" = false ∧ ["--clear"].contains "--app" = false) ∧
    (GpuStats.dump exState ["--clear"] (some "")).1 = some "" ∧
    exState.mGlobalStats ≠ [] ∧ exState.mAppStats ≠ [] ∧
    exState.dumpGlobalLocked "" ≠ "" ∧ exState.dumpAppLocked "" ≠ "" ∧
    (GpuStats.dump exState ["--clear"] (some "")).2 = initState := by
  refine ⟨⟨by decide, by decide⟩, by decide, by decide, by decide, by decide, by decide, by decide⟩

/-- C2 amended: when the flags contain none of the three recognized
strings, `dump` appends both tables (global section first) to the
report and leaves the state unchanged; when the clear flag is present
with neither selector flag, both tables are cleared and NOTHING is
appended to the report (the default dump-all is suppressed by the clear
flag, so no pre-clear report of the tables is produced). -/
theorem C2_amended_dump_default_and_clear :
    (∀ (s : GpuStats) (res : String) (args : List String),
        args.contains "--global" = false → args.contains "--app" = false →
        args.contains "--clear" = false →
        s.dump args (some res) = (some (s.dumpAppLocked (s.dumpGlobalLocked res)), s)) ∧
    (∀ (s : GpuStats) (res : String) (args : List String),
        args.contains "--global" = false → args.contains "--app" = false →
        args.contains "--clear" = true →
        s.dump args (some res) = (some res, initState)) := by
  constructor <;> intro s res args h1 h2 h3 <;>
    · simp at h1 h2 h3
      simp [GpuStats.dump, h1, h2, h3, initState]

/-- Witness for the amended C2 on a concrete non-empty store. -/
theorem C2_witness :
    (["x"].contains "--global" = false ∧ ["x"].contains "--app" = false ∧
      ["x"].contains "--clear" = false ∧ ["--clear"].contains "--clear" = true) ∧
    GpuStats.dump exState ["x"] (some "") =
      (some (exState.dumpAppLocked (exState.dumpGlobalLocked "")), exState) ∧
    GpuStats.dump exState ["--clear"] (some "") = (some "", initState) :=
  ⟨⟨by decide, by decide, by decide, by decide⟩,
   C2_amended_dump_default_and_clear.1 exState "" ["x"] (by decide) (by decide) (by decide),
   C2_amended_dump_default_and_clear.2 exState "" ["--clear"] (by decide) (by decide) (by decide)⟩

/-- One hundred distinct app records, keyed k0, k1, ..., k99 (each the
composite key of app package name k with version code i). -/
def capAppEntries : List (String × GpuStatsAppInfo) :=
  (List.range MAX_NUM_APP_RECORDS).map fun i =>
    ("k" ++ ToString.toString i, { appPackageName := "k", driverVersionCode := i })

/-- A store whose app table holds exactly the capacity limit of
records. -/
def capState : GpuStats := { mGlobalStats := [], mAppStats := capAppEntries }

/-- Counterexample for C1 as stated: at capacity the composite key k7
IS present in the app table, yet an insert for app k with version code
7 leaves the app table completely unchanged — the loading-time sample
is NOT appended, because the source checks the capacity limit before
looking the key up. -/
theorem C1_counterexample :
    capState.mAppStats.length = MAX_NUM_APP_RECORDS ∧
    assocFind? ("k" ++ ToString.toString (7 : Nat)) capState.mAppStats =
      some { appPackageName := "k", driverVersionCode := 7 } ∧
    (capState.insert "drv" "1.0" 7 0 "k" .GL true 3).mAppStats = capState.mAppStats := by
  refine ⟨by simp [capState, capAppEntries, MAX_NUM_APP_RECORDS], by decide, ?_⟩
  exact insert_mAppStats_of_full capState "drv" "1.0" 7 0 "k" .GL true 3
    (by simp [capState, capAppEntries, MAX_NUM_APP_RECORDS])

/-- C1 amended: once the app table holds at least the capacity limit of
entries, `insert` leaves the app table unchanged whether or not the
composite key (appPackageName + driverVersionCode) is already present —
the loading-time sample is dropped even for existing entries, because
the capacity check precedes the key lookup. -/
theorem C1_at_capacity_app_table_frozen (s : GpuStats) (dpn dvn : String) (code : Nat)
    (bt : Int) (apn : String) (driver : Driver) (loaded : Bool) (t : Int)
    (h : s.mAppStats.length ≥ MAX_NUM_APP_RECORDS) :
    (s.insert dpn dvn code bt apn driver loaded t).mAppStats = s.mAppStats :=
  insert_mAppStats_of_full s dpn dvn code bt apn driver loaded t h

/-- Witness for the amended C1: an insert with a fresh composite key at
capacity leaves the app table unchanged. -/
theorem C1_witness :
    capState.mAppStats.length ≥ MAX_NUM_APP_RECORDS ∧
    (capState.insert "drv" "1.0" 200 0 "newapp" .VULKAN false 9).mAppStats =
      capState.mAppStats :=
  ⟨by simp [capState, capAppEntries, MAX_NUM_APP_RECORDS],
   C1_at_capacity_app_table_frozen capState "drv" "1.0" 200 0 "newapp" .VULKAN false 9
     (by simp [capState, capAppEntries, MAX_NUM_APP_RECORDS])⟩

/-- The store after inserting for the pair (a1, 2). -/
def c3s1 : GpuStats := initState.insert "drv" "1.0" 2 0 "a1" .GL true 1

/-- The store after then inserting for the different pair (a, 12): the
two composite key strings coincide (both are a12). -/
def collideState : GpuStats := c3s1.insert "drv" "1.0" 12 0 "a" .GL true 3

/-- Counterexample for C3 as stated: the pairs (a1, 2) and (a, 12)
differ, but their composite key strings are both a12, so the second
insertion appends its sample to the record created for the first pair:
afterwards the app table holds a single record, whose identity fields
are those of (a1, 2) and whose OpenGL sample sequence contains both
samples. -/
theorem C3_counterexample :
    ("a1", (2 : Nat)) ≠ ("a", (12 : Nat)) ∧
    ("a1" ++ ToString.toString (2 : Nat)) = ("a" ++ ToString.toString (12 : Nat)) ∧
    collideState.mAppStats.length = 1 ∧
    (assocFind? ("a" ++ ToString.toString (12 : Nat)) collideState.mAppStats).map
        (fun r => (r.appPackageName, r.driverVersionCode, r.glDriverLoadingTime)) =
      some ("a1", 2, [1, 3]) :=
  ⟨by decide, by decide, by decide, by decide⟩

theorem insertApp_find_ne (s : GpuStats) (apn : String) (code : Nat) (driver : Driver)
    (t : Int) (k : String) (hk : k ≠ apn ++ ToString.toString code) :
    assocFind? k (s.insertApp apn code driver t).mAppStats = assocFind? k s.mAppStats := by
  unfold GpuStats.insertApp
  by_cases h : s.mAppStats.length ≥ MAX_NUM_APP_RECORDS
  · simp [h]
  · simp only [h, if_false]
    cases hf : assocFind? (apn ++ ToString.toString code) s.mAppStats with
    | none =>
        simp only [hf]
        exact assocFind?_append_ne _ _ hk
    | some ai =>
        simp only [hf]
        exact assocFind?_assocSet_ne _ _ hk

theorem insertApp_keys_nodup (s : GpuStats) (apn : String) (code : Nat) (driver : Driver)
    (t : Int) (h : (s.mAppStats.map Prod.fst).Nodup) :
    ((s.insertApp apn code driver t).mAppStats.map Prod.fst).Nodup := by
  unfold GpuStats.insertApp
  by_cases hfull : s.mAppStats.length ≥ MAX_NUM_APP_RECORDS
  · simpa [hfull] using h
  · simp only [hfull, if_false]
    cases hf : assocFind? (apn ++ ToString.toString code) s.mAppStats with
    | none =>
        have hnotin : (apn ++ ToString.toString code) ∉ s.mAppStats.map Prod.fst :=
          (assocFind?_eq_none_iff _ _).mp hf
        simp only [hf]
        simp [List.nodup_append, h, hnotin]
    | some ai =>
        simp only [hf]
        simpa [assocSet_keys] using h

theorem insertApp_mAppStats_congr (g₁ g₂ : List (Nat × GpuStatsGlobalInfo))
    (a : List (String × GpuStatsAppInfo)) (apn : String) (code : Nat)
    (driver : Driver) (t : Int) :
    ((GpuStats.mk g₁ a).insertApp apn code driver t).mAppStats =
    ((GpuStats.mk g₂ a).insertApp apn code driver t).mAppStats := by
  unfold GpuStats.insertApp
  by_cases h : a.length ≥ MAX_NUM_APP_RECORDS
  · simp [h]
  · simp only [h, if_false]
    cases hf : assocFind? (apn ++ ToString.toString code) a <;> simp [hf]

theorem insert_mAppStats_cases (s : GpuStats) (dpn dvn : String) (code : Nat) (bt : Int)
    (apn : String) (driver : Driver) (loaded : Bool) (t : Int) :
    (s.insert dpn dvn code bt apn driver loaded t).mAppStats = s.mAppStats ∨
    (s.insert dpn dvn code bt apn driver loaded t).mAppStats =
      (s.insertApp apn code driver t).mAppStats := by
  unfold GpuStats.insert
  cases hf : assocFind? code s.mGlobalStats with
  | none =>
      cases hc : addLoadingCount driver loaded {} with
      | none => left; simp [hc]
      | some gi =>
          right
          simp only [hc]
          exact insertApp_mAppStats_congr _ s.mGlobalStats s.mAppStats apn code driver t
  | some gi =>
      cases hc : addLoadingCount driver loaded gi with
      | none => left; simp [hc]
      | some gi1 =>
          right
          simp only [hc]
          exact insertApp_mAppStats_congr _ s.mGlobalStats s.mAppStats apn code driver t

/-- C3 amended: app records are keyed by the composite key STRING
(appPackageName followed by the decimal digits of driverVersionCode),
not by the pair itself: an insertion never touches the record stored
under a different composite key string, and the table keeps at most one
record per composite key string; but two distinct pairs whose
concatenations coincide (such as (a1, 2) and (a, 12)) resolve to the
same record. -/
theorem C3_amended_records_keyed_by_concatenation :
    (∀ (s : GpuStats) (dpn dvn : String) (code : Nat) (bt : Int) (apn : String)
        (driver : Driver) (loaded : Bool) (t : Int) (k : String),
        k ≠ apn ++ ToString.toString code →
        assocFind? k (s.insert dpn dvn code bt apn driver loaded t).mAppStats =
          assocFind? k s.mAppStats) ∧
    (∀ (s : GpuStats) (dpn dvn : String) (code : Nat) (bt : Int) (apn : String)
        (driver : Driver) (loaded : Bool) (t : Int),
        (s.mAppStats.map Prod.fst).Nodup →
        ((s.insert dpn dvn code bt apn driver loaded t).mAppStats.map Prod.fst).Nodup) := by
  constructor
  · intro s dpn dvn code bt apn driver loaded t k hk
    rcases insert_mAppStats_cases s dpn dvn code bt apn driver loaded t with h | h
    · rw [h]
    · rw [h]
      exact insertApp_find_ne s apn code driver t k hk
  · intro s dpn dvn code bt apn driver loaded t hn
    rcases insert_mAppStats_cases s dpn dvn code bt apn driver loaded t with h | h
    · rw [h]
      exact hn
    · rw [h]
      exact insertApp_keys_nodup s apn code driver t hn

/-- Witness for the amended C3 on the concrete colliding insertions. -/
theorem C3_witness :
    ("zzz" ≠ "a" ++ ToString.toString (12 : Nat) ∧ (c3s1.mAppStats.map Prod.fst).Nodup) ∧
    assocFind? "zzz" collideState.mAppStats = assocFind? "zzz" c3s1.mAppStats ∧
    (collideState.mAppStats.map Prod.fst).Nodup :=
  ⟨⟨by decide, by decide⟩,
   C3_amended_records_keyed_by_concatenation.1 c3s1 "drv" "1.0" 12 0 "a" .GL true 3 "zzz"
     (by decide),
   C3_amended_records_keyed_by_concatenation.2 c3s1 "drv" "1.0" 12 0 "a" .GL true 3
     (by decide)⟩

theorem dump_mAppStats_cases (s : GpuStats) (args : List String) (r : Option String) :
    (s.dump args r).2.mAppStats = s.mAppStats ∨ (s.dump args r).2.mAppStats = [] := by
  unfold GpuStats.dump
  cases r with
  | none => exact Or.inl rfl
  | some res =>
      by_cases hg : "--global" ∈ args <;> by_cases ha : "--app" ∈ args <;>
        by_cases hc : "--clear" ∈ args <;> simp [hg, ha, hc]

/-- The store's public operations, for stating whole-lifecycle
invariants. -/
inductive Op where
  | ins (driverPackageName driverVersionName : String) (driverVersionCode : Nat)
      (driverBuildTime : Int) (appPackageName : String) (driver : Driver)
      (isDriverLoaded : Bool) (driverLoadingTime : Int)
  | dmp (args : List String) (result : Option String)
  | pull
deriving Repr

/-- The state transition of each public operation. -/
def applyOp (s : GpuStats) : Op → GpuStats
  | .ins dpn dvn code bt apn driver loaded t => s.insert dpn dvn code bt apn driver loaded t
  | .dmp args r => (s.dump args r).2
  | .pull => s.pullGlobalStats.2

/-- A run of the store: the default-constructed state followed by an
arbitrary sequence of public operations. -/
def runOps (ops : List Op) : GpuStats := ops.foldl applyOp initState

theorem insertApp_length_le (s : GpuStats) (apn : String) (code : Nat) (driver : Driver)
    (t : Int) : (s.insertApp apn code driver t).mAppStats.length ≤ s.mAppStats.length + 1 := by
  unfold GpuStats.insertApp
  by_cases h : s.mAppStats.length ≥ MAX_NUM_APP_RECORDS
  · simp [h]
  · simp only [h, if_false]
    cases hf : assocFind? (apn ++ ToString.toString code) s.mAppStats <;>
      simp [hf, assocSet_length]

theorem insert_mAppStats_length_le (s : GpuStats) (dpn dvn : String) (code : Nat) (bt : Int)
    (apn : String) (driver : Driver) (loaded : Bool) (t : Int)
    (h : s.mAppStats.length ≤ MAX_NUM_APP_RECORDS) :
    (s.insert dpn dvn code bt apn driver loaded t).mAppStats.length ≤ MAX_NUM_APP_RECORDS := by
  by_cases hfull : s.mAppStats.length ≥ MAX_NUM_APP_RECORDS
  · rw [insert_mAppStats_of_full s dpn dvn code bt apn driver loaded t hfull]
    exact h
  · rcases insert_mAppStats_cases s dpn dvn code bt apn driver loaded t with he | he
    · rw [he]
      exact h
    · rw [he]
      have hl := insertApp_length_le s apn code driver t
      omega

/-- C7: the app table never exceeds the capacity limit — the bound
holds for the initial empty state, is preserved by every public
operation, and therefore holds after every sequence of operations run
from the initial state. -/
theorem C7_app_table_capacity_invariant :
    initState.mAppStats.length ≤ MAX_NUM_APP_RECORDS ∧
    (∀ (s : GpuStats) (op : Op), s.mAppStats.length ≤ MAX_NUM_APP_RECORDS →
        (applyOp s op).mAppStats.length ≤ MAX_NUM_APP_RECORDS) ∧
    (∀ ops : List Op, (runOps ops).mAppStats.length ≤ MAX_NUM_APP_RECORDS) := by
  have hstep : ∀ (s : GpuStats) (op : Op), s.mAppStats.length ≤ MAX_NUM_APP_RECORDS →
      (applyOp s op).mAppStats.length ≤ MAX_NUM_APP_RECORDS := by
    intro s op h
    cases op with
    | ins dpn dvn code bt apn driver loaded t =>
        exact insert_mAppStats_length_le s dpn dvn code bt apn driver loaded t h
    | dmp args r =>
        have hred : (applyOp s (Op.dmp args r)).mAppStats = (s.dump args r).2.mAppStats := rfl
        rw [hred]
        rcases dump_mAppStats_cases s args r with he | he
        · rw [he]
          exact h
        · rw [he]
          simp
    | pull => exact h
  refine ⟨by simp [initState], hstep, ?_⟩
  intro ops
  have hrun : ∀ (l : List Op) (s : GpuStats), s.mAppStats.length ≤ MAX_NUM_APP_RECORDS →
      (l.foldl applyOp s).mAppStats.length ≤ MAX_NUM_APP_RECORDS := by
    intro l
    induction l with
    | nil => intro s h; exact h
    | cons op rest ih =>
        intro s h
        exact ih (applyOp s op) (hstep s op h)
  exact hrun ops initState (by simp [initState])

/-- Witness for C7: the bound applied to the concrete example state and
a pull operation. -/
theorem C7_witness :
    exState.mAppStats.length ≤ MAX_NUM_APP_RECORDS ∧
    (applyOp exState Op.pull).mAppStats.length ≤ MAX_NUM_APP_RECORDS :=
  ⟨by decide, C7_app_table_capacity_invariant.2.1 exState Op.pull (by decide)⟩

/-- The OpenGL driver family (glossary: the GL and GL_UPDATED
variants — the first `switch` group in `addLoadingCount`). -/
def glFamily : Driver → Bool
  | .GL | .GL_UPDATED => true
  | _ => false

/-- The Vulkan driver family (the VULKAN and VULKAN_UPDATED variants —
the second `switch` group in `addLoadingCount`). -/
def vkFamily : Driver → Bool
  | .VULKAN | .VULKAN_UPDATED => true
  | _ => false

/-- The per-call arguments of `GpuStats::insert` other than the driver
version code, for stating properties of call sequences that share a
version code. -/
structure InsertEvent where
  driverPackageName : String := ""
  driverVersionName : String := ""
  driverBuildTime : Int := 0
  appPackageName : String := ""
  driver : Driver := Driver.NONE
  isDriverLoaded : Bool := true
  driverLoadingTime : Int := 0
deriving DecidableEq, Repr

/-- One insert call with the given version code. -/
def applyEvent (code : Nat) (s : GpuStats) (e : InsertEvent) : GpuStats :=
  s.insert e.driverPackageName e.driverVersionName code e.driverBuildTime
    e.appPackageName e.driver e.isDriverLoaded e.driverLoadingTime

/-- A sequence of insert calls sharing the version code. -/
def applyEvents (code : Nat) (s : GpuStats) (evs : List InsertEvent) : GpuStats :=
  evs.foldl (applyEvent code) s

/-- The OpenGL total counter of the global record at a version code
(0 when the record is absent). -/
def glCountAt (s : GpuStats) (code : Nat) : Nat :=
  match assocFind? code s.mGlobalStats with
  | none => 0
  | some r => r.glLoadingCount

/-- The OpenGL failure counter of the global record at a version code. -/
def glFailAt (s : GpuStats) (code : Nat) : Nat :=
  match assocFind? code s.mGlobalStats with
  | none => 0
  | some r => r.glLoadingFailureCount

/-- The Vulkan total counter of the global record at a version code. -/
def vkCountAt (s : GpuStats) (code : Nat) : Nat :=
  match assocFind? code s.mGlobalStats with
  | none => 0
  | some r => r.vkLoadingCount

/-- The Vulkan failure counter of the global record at a version code. -/
def vkFailAt (s : GpuStats) (code : Nat) : Nat :=
  match assocFind? code s.mGlobalStats with
  | none => 0
  | some r => r.vkLoadingFailureCount

theorem counters_insert (s : GpuStats) (dpn dvn : String) (code : Nat) (bt : Int)
    (apn : String) (driver : Driver) (loaded : Bool) (t : Int) :
    glCountAt (s.insert dpn dvn code bt apn driver loaded t) code =
      glCountAt s code + (if glFamily driver then 1 else 0) ∧
    glFailAt (s.insert dpn dvn code bt apn driver loaded t) code =
      glFailAt s code + (if glFamily driver && !loaded then 1 else 0) ∧
    vkCountAt (s.insert dpn dvn code bt apn driver loaded t) code =
      vkCountAt s code + (if vkFamily driver then 1 else 0) ∧
    vkFailAt (s.insert dpn dvn code bt apn driver loaded t) code =
      vkFailAt s code + (if vkFamily driver && !loaded then 1 else 0) := by
  unfold GpuStats.insert
  cases hf : assocFind? code s.mGlobalStats with
  | none =>
      have hap : ∀ v, assocFind? code (s.mGlobalStats ++ [(code, v)]) = some v :=
        fun v => assocFind?_append_self code v s.mGlobalStats hf
      cases driver <;> cases loaded <;>
        simp [addLoadingCount, glCountAt, glFailAt, vkCountAt, vkFailAt,
              glFamily, vkFamily, hf, insertApp_mGlobalStats, hap]
  | some gi =>
      have hap : ∀ v, assocFind? code (assocSet code v s.mGlobalStats) = some v :=
        fun v => assocFind?_assocSet_self code v gi s.mGlobalStats hf
      cases driver <;> cases loaded <;>
        simp [addLoadingCount, glCountAt, glFailAt, vkCountAt, vkFailAt,
              glFamily, vkFamily, hf, insertApp_mGlobalStats, hap]

theorem counters_applyEvents (code : Nat) (evs : List InsertEvent) : ∀ (s : GpuStats),
    glCountAt (applyEvents code s evs) code =
      glCountAt s code + evs.countP (fun e => glFamily e.driver) ∧
    glFailAt (applyEvents code s evs) code =
      glFailAt s code + evs.countP (fun e => glFamily e.driver && !e.isDriverLoaded) ∧
    vkCountAt (applyEvents code s evs) code =
      vkCountAt s code + evs.countP (fun e => vkFamily e.driver) ∧
    vkFailAt (applyEvents code s evs) code =
      vkFailAt s code + evs.countP (fun e => vkFamily e.driver && !e.isDriverLoaded) := by
  induction evs with
  | nil => intro s; simp [applyEvents]
  | cons e rest ih =>
      intro s
      obtain ⟨h1, h2, h3, h4⟩ := counters_insert s e.driverPackageName e.driverVersionName
        code e.driverBuildTime e.appPackageName e.driver e.isDriverLoaded e.driverLoadingTime
      obtain ⟨g1, g2, g3, g4⟩ := ih (applyEvent code s e)
      have happ : applyEvents code s (e :: rest) = applyEvents code (applyEvent code s e) rest :=
        rfl
      have h1a : glCountAt (applyEvent code s e) code =
          glCountAt s code + (if glFamily e.driver then 1 else 0) := h1
      have h2a : glFailAt (applyEvent code s e) code =
          glFailAt s code + (if glFamily e.driver && !e.isDriverLoaded then 1 else 0) := h2
      have h3a : vkCountAt (applyEvent code s e) code =
          vkCountAt s code + (if vkFamily e.driver then 1 else 0) := h3
      have h4a : vkFailAt (applyEvent code s e) code =
          vkFailAt s code + (if vkFamily e.driver && !e.isDriverLoaded then 1 else 0) := h4
      rw [happ]
      refine ⟨?_, ?_, ?_, ?_⟩
      · rw [g1, h1a, List.countP_cons]
        omega
      · rw [g2, h2a, List.countP_cons]
        omega
      · rw [g3, h3a, List.countP_cons]
        omega
      · rw [g4, h4a, List.countP_cons]
        omega

/-- C4: for every sequence of insert calls sharing a version code,
starting from a state with no global record for that code, the
resulting record's total counters count exactly the insertions of its
driver family, its failure counters count those insertions with
isDriverLoaded = false, and each failure counter is bounded by its
family's total counter. -/
theorem C4_global_counters_count_insertions (code : Nat) (s : GpuStats)
    (evs : List InsertEvent) (rec : GpuStatsGlobalInfo)
    (h0 : assocFind? code s.mGlobalStats = none)
    (hrec : assocFind? code (applyEvents code s evs).mGlobalStats = some rec) :
    rec.glLoadingCount = evs.countP (fun e => glFamily e.driver) ∧
    rec.glLoadingFailureCount = evs.countP (fun e => glFamily e.driver && !e.isDriverLoaded) ∧
    rec.vkLoadingCount = evs.countP (fun e => vkFamily e.driver) ∧
    rec.vkLoadingFailureCount = evs.countP (fun e => vkFamily e.driver && !e.isDriverLoaded) ∧
    rec.glLoadingFailureCount ≤ rec.glLoadingCount ∧
    rec.vkLoadingFailureCount ≤ rec.vkLoadingCount := by
  obtain ⟨g1, g2, g3, g4⟩ := counters_applyEvents code evs s
  have e1 : glCountAt s code = 0 := by simp [glCountAt, h0]
  have e2 : glFailAt s code = 0 := by simp [glFailAt, h0]
  have e3 : vkCountAt s code = 0 := by simp [vkCountAt, h0]
  have e4 : vkFailAt s code = 0 := by simp [vkFailAt, h0]
  have f1 : glCountAt (applyEvents code s evs) code = rec.glLoadingCount := by
    simp [glCountAt, hrec]
  have f2 : glFailAt (applyEvents code s evs) code = rec.glLoadingFailureCount := by
    simp [glFailAt, hrec]
  have f3 : vkCountAt (applyEvents code s evs) code = rec.vkLoadingCount := by
    simp [vkCountAt, hrec]
  have f4 : vkFailAt (applyEvents code s evs) code = rec.vkLoadingFailureCount := by
    simp [vkFailAt, hrec]
  have hgl : evs.countP (fun e => glFamily e.driver && !e.isDriverLoaded) ≤
      evs.countP (fun e => glFamily e.driver) :=
    List.countP_mono_left (fun e _ hb => (Bool.and_eq_true _ _ |>.mp hb).1)
  have hvk : evs.countP (fun e => vkFamily e.driver && !e.isDriverLoaded) ≤
      evs.countP (fun e => vkFamily e.driver) :=
    List.countP_mono_left (fun e _ hb => (Bool.and_eq_true _ _ |>.mp hb).1)
  refine ⟨by omega, by omega, by omega, by omega, by omega, by omega⟩

/-- The concrete insertion sequence of the spec scenario: two OpenGL
loads for com.foo (one failing) and one failing Vulkan load. -/
def c4evs : List InsertEvent :=
  [{ driverPackageName := "drv", driverVersionName := "1.0", appPackageName := "com.foo"
     driver := .GL, isDriverLoaded := true, driverLoadingTime := 12 },
   { driverPackageName := "drv", driverVersionName := "1.0", appPackageName := "com.foo"
     driver := .GL, isDriverLoaded := false, driverLoadingTime := 30 },
   { driverPackageName := "x", driverVersionName := "2", appPackageName := "com.bar"
     driver := .VULKAN, isDriverLoaded := false, driverLoadingTime := 7 }]

/-- The resulting global record for version code 5 after `c4evs`. -/
def c4rec : GpuStatsGlobalInfo :=
  { driverPackageName := "drv", driverVersionName := "1.0", driverVersionCode := 5
    driverBuildTime := 0, glLoadingCount := 2, glLoadingFailureCount := 1
    vkLoadingCount := 1, vkLoadingFailureCount := 1 }

/-- Witness for C4 on the concrete three-event sequence. -/
theorem C4_witness :
    (assocFind? 5 initState.mGlobalStats = none ∧
      assocFind? 5 (applyEvents 5 initState c4evs).mGlobalStats = some c4rec) ∧
    (c4rec.glLoadingCount = c4evs.countP (fun e => glFamily e.driver) ∧
      c4rec.glLoadingFailureCount =
        c4evs.countP (fun e => glFamily e.driver && !e.isDriverLoaded) ∧
      c4rec.vkLoadingCount = c4evs.countP (fun e => vkFamily e.driver) ∧
      c4rec.vkLoadingFailureCount =
        c4evs.countP (fun e => vkFamily e.driver && !e.isDriverLoaded) ∧
      c4rec.glLoadingFailureCount ≤ c4rec.glLoadingCount ∧
      c4rec.vkLoadingFailureCount ≤ c4rec.vkLoadingCount) :=
  ⟨⟨rfl, by decide⟩,
   C4_global_counters_count_insertions 5 initState c4evs c4rec rfl (by decide)⟩

end android
